import Mathlib

/-!
Shallow embedding of the Remote Media Player JSON-RPC client
(`custom_components/remote_media_player/api.py`) and of the frame handling
of the reference peer (`scripts/dummy_server.py`).

Modelling conventions:
- JSON values are the inductive `Json`; a parsed JSON object is its field
  list in source order.  `json.dumps` / `json.loads` round-trip a JSON
  object, so the wire codec is modelled at the level of parsed objects;
  a payload that is not valid JSON text (or a binary frame that is not
  valid UTF-8) is an explicit `Payload` constructor.
- Python dict access `d[k]` / `k in d` / `d.get(k, default)` takes the
  last occurrence of a duplicated key, which `jsonGet` mirrors.
- `asyncio.Future` objects held by callers are modelled by `FutureState`;
  the dict `_response_futures` is the list of keys `tracked` plus the
  association list `futures` of every future ever created for this client
  (callers keep references to futures after the registry pops them).
- Exceptions raised by the client are the type `ApiError`:
  `ApiError.clientError` is `ApiClientError`, `ApiError.connectionError`
  is its subclass `ApiClientConnectionError`.
-/

/-- A JSON value, as produced by `json.loads`. -/
inductive Json where
  | null : Json
  | bool (b : Bool) : Json
  | num (n : Int) : Json
  | str (s : String) : Json
  | arr (xs : List Json) : Json
  | obj (fields : List (String × Json)) : Json

/-- Python dict lookup on a parsed JSON object: `data[key]` when present.
When `json.loads` meets a duplicated key the last occurrence wins, so the
lookup scans for the last matching field. -/
def jsonGet (fields : List (String × Json)) (key : String) : Option Json :=
  match fields with
  | [] => none
  | (k, v) :: rest =>
    match jsonGet rest key with
    | some v2 => some v2
    | none => if k = key then some v else none

/-- State of one `asyncio.Future` result slot of a pending call
(`api.py` line 154): unresolved, resolved by `set_result`, failed by
`set_exception(ApiClientError(message))`, or cancelled. -/
inductive FutureState where
  | pending : FutureState
  | resolvedOk (v : Json) : FutureState
  | resolvedErr (message : Json) : FutureState
  | cancelled : FutureState

/-- Mirrors `asyncio.Future.done()`: true once resolved, failed or
cancelled. -/
def FutureState.isDone : FutureState → Bool
  | .pending => false
  | _ => true

/-- Exceptions raised by the client (`api.py` lines 22-27):
`clientError` is `ApiClientError` (carrying the argument it was
constructed with), `connectionError` is its subclass
`ApiClientConnectionError` (always constructed with a string message in
the source). -/
inductive ApiError where
  | clientError (message : Json) : ApiError
  | connectionError (message : String) : ApiError

/-- True exactly for the `ApiClientConnectionError` exception class. -/
def ApiError.isConnectionError : ApiError → Bool
  | .connectionError _ => true
  | .clientError _ => false

/-- State of one `RemoteMediaPlayerClient` (`api.py` lines 33-42).
`websocket` and `task` model whether `self._websocket` / `self._task` are
non-`None`; `tracked` is the key set of the dict `self._response_futures`;
`futures` maps each allocated id to the current state of its future
object (callers hold the future even after the registry pops the key);
`stateCb` / `errorCb` model whether the two callback slots are set. -/
structure ClientState where
  websocket : Bool
  task : Bool
  messageId : Int
  stateCb : Bool
  errorCb : Bool
  tracked : List Int
  futures : List (Int × FutureState)

/-- The client as constructed by `__init__` (`api.py` lines 33-42):
no transport, counter `_message_id = 0`, empty registry, no callbacks. -/
def initClient : ClientState :=
  { websocket := false, task := false, messageId := 0,
    stateCb := false, errorCb := false, tracked := [], futures := [] }

/-- Update the future object with key `k` (a caller-held result slot)
to state `f`. -/
def setFuture (st : ClientState) (k : Int) (f : FutureState) : ClientState :=
  { st with futures := st.futures.map (fun e => if e.1 = k then (e.1, f) else e) }

/-- Remove key `k` from the pending-call registry, as
`self._response_futures.pop(...)` does on a dict. -/
def popTracked (st : ClientState) (k : Int) : ClientState :=
  { st with tracked := st.tracked.filter (fun x => x ≠ k) }

/-- An inbound WebSocket frame as seen by `_handle_message`
(`api.py` lines 86-92): a binary frame that is not valid UTF-8
(`UnicodeDecodeError`), a text payload that is not valid JSON
(`json.JSONDecodeError`), or a payload parsing to a JSON object with the
given fields. -/
inductive Payload where
  | invalidUtf8 : Payload
  | invalidJson : Payload
  | jsonObj (fields : List (String × Json)) : Payload

/-- Observable outcome of `_handle_message` on one frame: which log
branch fired, which future was resolved and with what, or which callback
was invoked with what argument.  `uncaughtError` marks a `TypeError` that
none of the `except` clauses at lines 111-116 catch and that therefore
escapes into `_listen`. -/
inductive HandleEffect where
  | logUnicodeError : HandleEffect
  | logMalformed : HandleEffect
  | logKeyError : HandleEffect
  | resolvedOk (id : Int) (result : Json) : HandleEffect
  | resolvedErr (id : Int) (message : Json) : HandleEffect
  | droppedResponse : HandleEffect
  | notifyState (params : Json) : HandleEffect
  | notifyError (message : Json) : HandleEffect
  | uncaughtError : HandleEffect
  | ignored : HandleEffect

/-- Does the frame's `id` value match a key of the registry dict?
Keys are the `int` ids the client allocated, so only a JSON number equal
to a tracked key matches (`msg_id in self._response_futures`,
`api.py` line 97). -/
def trackedMatch (tracked : List Int) (idVal : Json) : Option Int :=
  match idVal with
  | .num i => if tracked.contains i then some i else none
  | _ => none

/-- Python string equality test `j == s` for a JSON value against a
string literal (`api.py` lines 107, 109). -/
def Json.eqStr (j : Json) (s : String) : Bool :=
  match j with
  | .str t => t = s
  | _ => false

/-- `RemoteMediaPlayerClient._handle_message` (`api.py` lines 86-116).
A frame with an `id` is a response: a matching pending call is popped
from the registry and its future resolved (`set_exception` with
`ApiClientError(data["error"]["message"])` when an `error` field is
present, else `set_result(data.get("result", {}))`); a non-matching id
returns with no state change.  A frame with no `id` but a `method` is a
notification dispatched to the matching registered callback.  Decode and
key errors are logged and the frame dropped. -/
def handleMessage (st : ClientState) (p : Payload) : ClientState × HandleEffect :=
  match p with
  | .invalidUtf8 => (st, .logUnicodeError)
  | .invalidJson => (st, .logMalformed)
  | .jsonObj data =>
    match jsonGet data "id" with
    | some idVal =>
      match trackedMatch st.tracked idVal with
      | some k =>
        let st1 := popTracked st k
        match jsonGet data "error" with
        | some (Json.obj errFields) =>
          match jsonGet errFields "message" with
          | some m => (setFuture st1 k (.resolvedErr m), .resolvedErr k m)
          | none => (st1, .logKeyError)
        | some _ => (st1, .uncaughtError)
        | none =>
          let v := (jsonGet data "result").getD (Json.obj [])
          (setFuture st1 k (.resolvedOk v), .resolvedOk k v)
      | none => (st, .droppedResponse)
    | none =>
      match jsonGet data "method" with
      | some m =>
        if m.eqStr "stateChanged" && st.stateCb then
          match jsonGet data "params" with
          | some ps => (st, .notifyState ps)
          | none => (st, .logKeyError)
        else if m.eqStr "error" && st.errorCb then
          match jsonGet data "params" with
          | some (Json.obj pf) =>
            match jsonGet pf "message" with
            | some msg => (st, .notifyError msg)
            | none => (st, .logKeyError)
          | some _ => (st, .uncaughtError)
          | none => (st, .logKeyError)
        else (st, .ignored)
      | none => (st, .ignored)

/-- `RemoteMediaPlayerClient.disconnect` (`api.py` lines 60-76): cancel
and clear the listener task, close the transport, cancel every future
still in the registry dict that is not done, then clear the dict. -/
def disconnect (st : ClientState) : ClientState :=
  { st with
    task := false,
    websocket := false,
    futures := st.futures.map (fun e =>
      if st.tracked.contains e.1 && !e.2.isDone then (e.1, FutureState.cancelled) else e),
    tracked := [] }

/-- The frame built and sent by `_send_command` (`api.py` lines 145-151,
158): always `jsonrpc`, `method` and `id`; `params` only when the params
dict is truthy (`if params:` omits both `None` and the empty dict). -/
def encodeRequest (method : String) (msgId : Int)
    (params : Option (List (String × Json))) : List (String × Json) :=
  [("jsonrpc", Json.str "2.0"), ("method", Json.str method), ("id", Json.num msgId)] ++
    (match params with
     | some ps => if ps.isEmpty then [] else [("params", Json.obj ps)]
     | none => [])

/-- Request decoding of the reference peer (`scripts/dummy_server.py`
lines 68-74): a parsed frame lacking `method` or `id` is skipped
(`continue`); otherwise the handler reads `data["method"]`, `data["id"]`
and `params = data.get("params", {})`. -/
def serverDecode (frame : List (String × Json)) : Option (Json × Json × Json) :=
  match jsonGet frame "method", jsonGet frame "id" with
  | some m, some i => some (m, i, (jsonGet frame "params").getD (Json.obj []))
  | _, _ => none

/-- `_send_command` up to registration and write (`api.py` lines
134-158): with no transport it raises `ApiClientConnectionError("Not
connected")` before touching any state; otherwise, under the lock, it
increments `_message_id`, builds the frame, creates a pending future,
stores it in the registry under the new id, and sends the frame.
Returns the new state together with the allocated id and the sent
frame. -/
def sendCommandStart (st : ClientState) (method : String)
    (params : Option (List (String × Json))) :
    ClientState × Except ApiError (Int × List (String × Json)) :=
  if st.websocket = false then
    (st, .error (ApiError.connectionError "Not connected"))
  else
    let msgId := st.messageId + 1
    ({ st with messageId := msgId,
               futures := st.futures ++ [(msgId, FutureState.pending)],
               tracked := st.tracked ++ [msgId] },
     .ok (msgId, encodeRequest method msgId params))

/-- The timeout the source passes to `asyncio.wait_for`
(`api.py` line 159): a fixed 10 seconds, not a per-call argument. -/
def commandTimeoutSeconds : Nat := 10

/-- The `except TimeoutError` branch of `_send_command` (`api.py` lines
159-163): `asyncio.wait_for` cancels the still-unresolved future when
the timeout fires, the handler removes the id from the registry
(`pop(msg_id, None)`) and raises
`ApiClientConnectionError("Command timed out: " + method)`. -/
def sendCommandTimeout (st : ClientState) (msgId : Int) (method : String) :
    ClientState × ApiError :=
  ({ st with
      futures := st.futures.map (fun e =>
        if e.1 = msgId && !e.2.isDone then (e.1, FutureState.cancelled) else e),
      tracked := st.tracked.filter (fun x => x ≠ msgId) },
   ApiError.connectionError ("Command timed out: " ++ method))

/-- How the receive loop `_listen` terminated (`api.py` lines 118-132):
the transport closed (`ConnectionClosed`) or some other exception
escaped the read loop. -/
inductive ListenExit where
  | connectionClosed : ListenExit
  | otherError (description : String) : ListenExit

/-- The `except` clauses of `_listen` (`api.py` lines 126-132): invoke
the error callback, when registered, with a description of the failure;
nothing else is touched.  Returns the (unchanged) state and the list of
error-callback invocations. -/
def listenExitHandler (st : ClientState) (e : ListenExit) :
    ClientState × List String :=
  match e with
  | .connectionClosed => (st, if st.errorCb then ["Connection closed"] else [])
  | .otherError d => (st, if st.errorCb then [d] else [])

/-- A sequence of `_send_command` invocations on one client, each
completing (by response or timeout) before the next is issued; returns
the final state and the ids allocated, in order.  A call refused for
lack of a transport allocates no id.  Completion of a call pops its
registry key but never changes `_message_id`, so the allocation
behaviour of a successful sequence is fully captured by iterating the
allocation step. -/
def runCalls (st : ClientState)
    (cmds : List (String × Option (List (String × Json)))) :
    ClientState × List Int :=
  match cmds with
  | [] => (st, [])
  | (m, p) :: rest =>
    match sendCommandStart st m p with
    | (st1, .ok (i, _)) =>
      let r := runCalls st1 rest
      (r.1, i :: r.2)
    | (st1, .error _) => runCalls st1 rest

/-! Helper lemmas about association-list lookups under the key-preserving
maps the client performs on its futures. -/

/-- Looking up key `k` after a key-preserving map rewrites the found entry
through the map. -/
theorem lookup_map_entry (k : Int) (b : FutureState)
    (g : Int × FutureState → Int × FutureState)
    (hpres : ∀ e, (g e).1 = e.1) :
    ∀ l : List (Int × FutureState), List.lookup k l = some b →
      List.lookup k (l.map g) = some (g (k, b)).2 := by
  intro l
  induction l with
  | nil => intro h; simp [List.lookup] at h
  | cons e rest ih =>
    obtain ⟨a, c⟩ := e
    intro h
    by_cases hka : k = a
    · have ht : (k == a) = true := beq_iff_eq.mpr hka
      have hb : c = b := by simpa [List.lookup, ht] using h
      have hfst : (g (a, c)).1 = a := hpres (a, c)
      rcases hg : g (a, c) with ⟨x, y⟩
      have hx : x = a := by rw [hg] at hfst; exact hfst
      have hkb : g (k, b) = (x, y) := by rw [hka, ← hb, hg]
      have ht2 : (k == x) = true := beq_iff_eq.mpr (by rw [hx]; exact hka)
      simp [List.lookup, hg, ht2, hkb]
    · have hf : (k == a) = false := beq_eq_false_iff_ne.mpr hka
      have h2 : List.lookup k rest = some b := by
        simpa [List.lookup, hf] using h
      have hfst : (g (a, c)).1 = a := hpres (a, c)
      rcases hg : g (a, c) with ⟨x, y⟩
      have hx : x = a := by rw [hg] at hfst; exact hfst
      subst hx
      simp [List.lookup, hg, hf, ih h2]

/-- Entries whose key differs from the updated key are untouched by
`setFuture`. -/
theorem mem_setFuture_ne (l : List (Int × FutureState)) (k j : Int)
    (f newf : FutureState) (hjk : j ≠ k) :
    (j, f) ∈ l.map (fun e => if e.1 = k then (e.1, newf) else e) ↔ (j, f) ∈ l := by
  simp only [List.mem_map]
  constructor
  · rintro ⟨e, he, heq⟩
    by_cases h : e.1 = k
    · rw [if_pos h] at heq
      have hj : e.1 = j := congrArg Prod.fst heq
      exact absurd (hj ▸ h) hjk
    · rw [if_neg h] at heq
      exact heq ▸ he
  · intro hmem
    refine ⟨(j, f), hmem, ?_⟩
    rw [if_neg hjk]

/-- A connected client with two pending calls (ids 1 and 2) and both
callbacks registered, used to evaluate the theorems on concrete
inputs. -/
def stTwoPending : ClientState :=
  { websocket := true, task := true, messageId := 2,
    stateCb := true, errorCb := true, tracked := [1, 2],
    futures := [(1, .pending), (2, .pending)] }

/-- C4: invoking `call` while the transport is not connected fails
immediately with `ApiClientConnectionError` and performs no side effect:
the state (message-id counter, registry, futures) is returned untouched
and no frame is produced. -/
theorem c4_call_not_connected_fails_without_side_effects
    (st : ClientState) (method : String)
    (params : Option (List (String × Json)))
    (h : st.websocket = false) :
    sendCommandStart st method params =
      (st, .error (ApiError.connectionError "Not connected")) := by
  simp [sendCommandStart, h]

/-- C4 witness: the freshly constructed client refuses a `play` call with
the connection error and is left exactly as it was. -/
theorem c4_call_not_connected_witness :
    sendCommandStart initClient "play" none =
      (initClient, .error (ApiError.connectionError "Not connected")) :=
  c4_call_not_connected_fails_without_side_effects initClient "play" none rfl

/-- C6: encoding a request and decoding the produced frame on the
reference peer yields the same method, the same id, and the same params
mapping, with absent (or empty, hence omitted) params decoded as the
empty mapping. -/
theorem c6_encode_decode_roundtrip (method : String) (msgId : Int)
    (params : Option (List (String × Json))) :
    serverDecode (encodeRequest method msgId params) =
      some (Json.str method, Json.num msgId, Json.obj (params.getD [])) := by
  cases params with
  | none => simp [serverDecode, encodeRequest, jsonGet]
  | some ps => cases ps with
    | nil => simp [serverDecode, encodeRequest, jsonGet]
    | cons q qs => simp [serverDecode, encodeRequest, jsonGet]

/-- C9: whichever way the receive loop terminates (transport closed or
unrecoverable read failure), the exception handlers leave the whole
client state — pending-call registry included — untouched, and when the
error callback is registered it is invoked exactly once with a
description. -/
theorem c9_listen_exit_leaves_registry_untouched
    (st : ClientState) (e : ListenExit) :
    (listenExitHandler st e).1 = st ∧
      (st.errorCb = true → ∃ d, (listenExitHandler st e).2 = [d]) := by
  cases e with
  | connectionClosed =>
    exact ⟨rfl, fun h => ⟨"Connection closed", by simp [listenExitHandler, h]⟩⟩
  | otherError d =>
    exact ⟨rfl, fun h => ⟨d, by simp [listenExitHandler, h]⟩⟩

/-- C9 witness: a connection-closed exit on the two-pending-call client
changes nothing and fires the registered error callback once. -/
theorem c9_listen_exit_witness :
    (listenExitHandler stTwoPending .connectionClosed).1 = stTwoPending ∧
      ∃ d, (listenExitHandler stTwoPending .connectionClosed).2 = [d] :=
  ⟨(c9_listen_exit_leaves_registry_untouched stTwoPending .connectionClosed).1,
   (c9_listen_exit_leaves_registry_untouched stTwoPending .connectionClosed).2 rfl⟩

/-- C2 counterexample: the failure produced by the timeout branch of
`_send_command` is an `ApiClientConnectionError` — the very
ConnectionError class the claim says the timeout error is distinct
from.  There is no separate Timeout error type in the code. -/
theorem c2_timeout_error_is_connection_error :
    (sendCommandTimeout stTwoPending 1 "getState").2 =
        ApiError.connectionError "Command timed out: getState" ∧
      ((sendCommandTimeout stTwoPending 1 "getState").2).isConnectionError = true :=
  ⟨rfl, rfl⟩

/-- C2 amended: a call whose response never arrives fails after the fixed
10-second timeout with `ApiClientConnectionError("Command timed out:
<method>")` (the connection-error class, not a distinct Timeout error),
and afterward the registry no longer tracks that call's id while every
other tracked id stays tracked. -/
theorem c2_amended_timeout_clears_registry_entry
    (st : ClientState) (msgId : Int) (method : String) :
    (sendCommandTimeout st msgId method).2 =
        ApiError.connectionError ("Command timed out: " ++ method) ∧
      msgId ∉ (sendCommandTimeout st msgId method).1.tracked ∧
      (∀ j ∈ st.tracked, j ≠ msgId →
        j ∈ (sendCommandTimeout st msgId method).1.tracked) ∧
      commandTimeoutSeconds = 10 := by
  refine ⟨rfl, ?_, ?_, rfl⟩
  · simp [sendCommandTimeout]
  · intro j hj hne
    simp [sendCommandTimeout, List.mem_filter, hj, hne]

/-- C2 amended witness: timing out call 1 on the two-pending-call client
yields the connection-error message, untracks id 1 and keeps id 2. -/
theorem c2_amended_timeout_witness :
    (sendCommandTimeout stTwoPending 1 "play").2 =
        ApiError.connectionError "Command timed out: play" ∧
      (1 : Int) ∉ (sendCommandTimeout stTwoPending 1 "play").1.tracked ∧
      (2 : Int) ∈ (sendCommandTimeout stTwoPending 1 "play").1.tracked ∧
      commandTimeoutSeconds = 10 :=
  ⟨(c2_amended_timeout_clears_registry_entry stTwoPending 1 "play").1,
   (c2_amended_timeout_clears_registry_entry stTwoPending 1 "play").2.1,
   (c2_amended_timeout_clears_registry_entry stTwoPending 1 "play").2.2.1 2
     (by decide) (by decide),
   (c2_amended_timeout_clears_registry_entry stTwoPending 1 "play").2.2.2⟩

/-- Reduction of `_handle_message` on a response frame whose id matches a
tracked pending call and that has no `error` field: the registry key is
popped and the future resolved with `data.get("result", {})`. -/
theorem handleMessage_response_ok (st : ClientState)
    (data : List (String × Json)) (k : Int)
    (hid : jsonGet data "id" = some (Json.num k))
    (htr : st.tracked.contains k = true)
    (herr : jsonGet data "error" = none) :
    handleMessage st (.jsonObj data) =
      (setFuture (popTracked st k) k
         (.resolvedOk ((jsonGet data "result").getD (Json.obj []))),
       .resolvedOk k ((jsonGet data "result").getD (Json.obj []))) := by
  have htm : k ∈ st.tracked := by simpa using htr
  simp [handleMessage, hid, trackedMatch, htm, herr]

/-- Reduction of `_handle_message` on a response frame whose id matches a
tracked pending call and whose `error` field is an object with a
`message` field: the registry key is popped and the future failed with
`ApiClientError(error["message"])`. -/
theorem handleMessage_response_err (st : ClientState)
    (data errFields : List (String × Json)) (k : Int) (m : Json)
    (hid : jsonGet data "id" = some (Json.num k))
    (htr : st.tracked.contains k = true)
    (herr : jsonGet data "error" = some (Json.obj errFields))
    (hmsg : jsonGet errFields "message" = some m) :
    handleMessage st (.jsonObj data) =
      (setFuture (popTracked st k) k (.resolvedErr m), .resolvedErr k m) := by
  have htm : k ∈ st.tracked := by simpa using htr
  simp [handleMessage, hid, trackedMatch, htm, herr, hmsg]

/-- C1: a success response whose id matches a tracked pending call
resolves exactly that call with the frame's result value unchanged,
removes that id (and only that id) from the registry, leaves every other
pending call's future and both callback slots unmodified; and a response
whose id matches no tracked call is discarded with no state change at
all. -/
theorem c1_response_resolves_exactly_matching_call (st : ClientState) :
    (∀ data k v, jsonGet data "id" = some (Json.num k) →
      st.tracked.contains k = true →
      jsonGet data "error" = none →
      jsonGet data "result" = some v →
      (handleMessage st (.jsonObj data)).2 = .resolvedOk k v ∧
      (∀ b, st.futures.lookup k = some b →
        (handleMessage st (.jsonObj data)).1.futures.lookup k =
          some (.resolvedOk v)) ∧
      (handleMessage st (.jsonObj data)).1.tracked =
        st.tracked.filter (fun x => x ≠ k) ∧
      (∀ j f, j ≠ k →
        ((j, f) ∈ (handleMessage st (.jsonObj data)).1.futures ↔
          (j, f) ∈ st.futures)) ∧
      (handleMessage st (.jsonObj data)).1.stateCb = st.stateCb ∧
      (handleMessage st (.jsonObj data)).1.errorCb = st.errorCb) ∧
    (∀ data idVal, jsonGet data "id" = some idVal →
      trackedMatch st.tracked idVal = none →
      handleMessage st (.jsonObj data) = (st, .droppedResponse)) := by
  constructor
  · intro data k v hid htr herr hres
    rw [handleMessage_response_ok st data k hid htr herr, hres]
    refine ⟨rfl, ?_, rfl, ?_, rfl, rfl⟩
    · intro b hb
      have hpres : ∀ e : Int × FutureState,
          ((fun e => if e.1 = k then (e.1, FutureState.resolvedOk v) else e) e).1 = e.1 := by
        intro e; by_cases h : e.1 = k <;> simp [h]
      have := lookup_map_entry k b _ hpres st.futures hb
      simpa [setFuture, popTracked] using this
    · intro j f hjk
      simpa [setFuture, popTracked] using
        mem_setFuture_ne st.futures k j f (.resolvedOk v) hjk
  · intro data idVal hid hnm
    simp [handleMessage, hid, hnm]

/-- Concrete success response to call id 1. -/
def frameResult1 : List (String × Json) :=
  [("jsonrpc", Json.str "2.0"), ("result", Json.str "ok"), ("id", Json.num 1)]

/-- Concrete response whose id 99 matches no pending call. -/
def frameUnknownId : List (String × Json) :=
  [("jsonrpc", Json.str "2.0"), ("result", Json.bool true), ("id", Json.num 99)]

/-- C1 witness: on the two-pending-call client, the response to id 1
resolves call 1 with its result, untracks only id 1, keeps call 2's
future, and a response for id 99 is discarded unchanged. -/
theorem c1_response_witness :
    (handleMessage stTwoPending (.jsonObj frameResult1)).2 =
        .resolvedOk 1 (Json.str "ok") ∧
      (handleMessage stTwoPending (.jsonObj frameResult1)).1.futures.lookup 1 =
        some (.resolvedOk (Json.str "ok")) ∧
      (handleMessage stTwoPending (.jsonObj frameResult1)).1.tracked =
        stTwoPending.tracked.filter (fun x => x ≠ 1) ∧
      ((2, FutureState.pending) ∈
          (handleMessage stTwoPending (.jsonObj frameResult1)).1.futures ↔
        (2, FutureState.pending) ∈ stTwoPending.futures) ∧
      handleMessage stTwoPending (.jsonObj frameUnknownId) =
        (stTwoPending, .droppedResponse) := by
  obtain ⟨h1, h2⟩ := c1_response_resolves_exactly_matching_call stTwoPending
  obtain ⟨e1, e2, e3, e4, _, _⟩ := h1 frameResult1 1 (Json.str "ok") rfl rfl rfl rfl
  exact ⟨e1, e2 .pending rfl, e3, e4 2 .pending (by decide),
    h2 frameUnknownId (Json.num 99) rfl rfl⟩

/-- C10: a response whose id matches a pending call but that carries
neither a `result` nor an `error` field resolves that call successfully
with the empty mapping (`data.get("result", {})`) rather than failing. -/
theorem c10_response_without_result_resolves_empty (st : ClientState)
    (data : List (String × Json)) (k : Int)
    (hid : jsonGet data "id" = some (Json.num k))
    (htr : st.tracked.contains k = true)
    (herr : jsonGet data "error" = none)
    (hres : jsonGet data "result" = none) :
    (handleMessage st (.jsonObj data)).2 = .resolvedOk k (Json.obj []) ∧
      (∀ b, st.futures.lookup k = some b →
        (handleMessage st (.jsonObj data)).1.futures.lookup k =
          some (.resolvedOk (Json.obj []))) := by
  rw [handleMessage_response_ok st data k hid htr herr, hres]
  refine ⟨rfl, ?_⟩
  intro b hb
  have hpres : ∀ e : Int × FutureState,
      ((fun e => if e.1 = k then (e.1, FutureState.resolvedOk (Json.obj [])) else e) e).1
        = e.1 := by
    intro e; by_cases h : e.1 = k <;> simp [h]
  have := lookup_map_entry k b _ hpres st.futures hb
  simpa [setFuture, popTracked] using this

/-- Concrete bare acknowledgement frame: an id matching pending call 2
and neither result nor error. -/
def frameBareAck : List (String × Json) :=
  [("jsonrpc", Json.str "2.0"), ("id", Json.num 2)]

/-- C10 witness: the bare acknowledgement for id 2 resolves call 2 with
the empty object. -/
theorem c10_response_witness :
    (handleMessage stTwoPending (.jsonObj frameBareAck)).2 =
        .resolvedOk 2 (Json.obj []) ∧
      (handleMessage stTwoPending (.jsonObj frameBareAck)).1.futures.lookup 2 =
        some (.resolvedOk (Json.obj [])) := by
  obtain ⟨h1, h2⟩ :=
    c10_response_without_result_resolves_empty stTwoPending frameBareAck 2
      rfl rfl rfl rfl
  exact ⟨h1, h2 .pending rfl⟩

/-- Concrete error response for id 1 with code -32601. -/
def frameErrCodeA : List (String × Json) :=
  [("jsonrpc", Json.str "2.0"),
   ("error", Json.obj [("code", Json.num (-32601)),
                       ("message", Json.str "Method not found")]),
   ("id", Json.num 1)]

/-- The same error response with a different code, 999. -/
def frameErrCodeB : List (String × Json) :=
  [("jsonrpc", Json.str "2.0"),
   ("error", Json.obj [("code", Json.num 999),
                       ("message", Json.str "Method not found")]),
   ("id", Json.num 1)]

/-- C8 counterexample: two error responses that differ only in their
`code` produce the exact same client state and the exact same
resolution, `set_exception(ApiClientError("Method not found"))` — the
exception carries solely the server's message, so the failure delivered
to the call cannot carry the server's error code as the claim states. -/
theorem c8_error_code_not_propagated :
    handleMessage stTwoPending (.jsonObj frameErrCodeA) =
        handleMessage stTwoPending (.jsonObj frameErrCodeB) ∧
      (handleMessage stTwoPending (.jsonObj frameErrCodeA)).2 =
        .resolvedErr 1 (Json.str "Method not found") :=
  ⟨rfl, rfl⟩

/-- C8 amended: an error response whose id matches a pending call fails
that call with `ApiClientError` carrying the server's error message
only; the server's error code is not propagated. -/
theorem c8_amended_remote_error_carries_message
    (st : ClientState) (data errFields : List (String × Json))
    (k : Int) (m : Json)
    (hid : jsonGet data "id" = some (Json.num k))
    (htr : st.tracked.contains k = true)
    (herr : jsonGet data "error" = some (Json.obj errFields))
    (hmsg : jsonGet errFields "message" = some m) :
    (handleMessage st (.jsonObj data)).2 = .resolvedErr k m ∧
      (∀ b, st.futures.lookup k = some b →
        (handleMessage st (.jsonObj data)).1.futures.lookup k =
          some (.resolvedErr m)) := by
  rw [handleMessage_response_err st data errFields k m hid htr herr hmsg]
  refine ⟨rfl, ?_⟩
  intro b hb
  have hpres : ∀ e : Int × FutureState,
      ((fun e => if e.1 = k then (e.1, FutureState.resolvedErr m) else e) e).1 = e.1 := by
    intro e; by_cases h : e.1 = k <;> simp [h]
  have := lookup_map_entry k b _ hpres st.futures hb
  simpa [setFuture, popTracked] using this

/-- C8 amended witness: the -32601 error response fails call 1 with the
message-only exception. -/
theorem c8_amended_remote_error_witness :
    (handleMessage stTwoPending (.jsonObj frameErrCodeA)).2 =
        .resolvedErr 1 (Json.str "Method not found") ∧
      (handleMessage stTwoPending (.jsonObj frameErrCodeA)).1.futures.lookup 1 =
        some (.resolvedErr (Json.str "Method not found")) := by
  obtain ⟨h1, h2⟩ :=
    c8_amended_remote_error_carries_message stTwoPending frameErrCodeA
      [("code", Json.num (-32601)), ("message", Json.str "Method not found")]
      1 (Json.str "Method not found") rfl rfl rfl rfl
  exact ⟨h1, h2 .pending rfl⟩

/-- C7 counterexample: the frame carrying id 2 but neither `result` nor
`error` is not rejected with any UnknownFrameShape failure — the code
resolves pending call 2 successfully with the empty mapping. -/
theorem c7_no_unknown_frame_shape_failure :
    handleMessage stTwoPending (.jsonObj frameBareAck) =
      ({ stTwoPending with
          tracked := [1],
          futures := [(1, .pending), (2, .resolvedOk (Json.obj []))] },
       .resolvedOk 2 (Json.obj [])) :=
  rfl

/-- C7 amended: a payload that is not valid JSON is logged and dropped
(the MalformedFrame case); a decoded object with neither `id` nor
`method` is silently ignored with no error and no state change; and a
decoded object with an id but neither `result` nor `error` is not
treated as an unknown shape — when the id matches a pending call the
call is resolved successfully with the empty mapping. -/
theorem c7_amended_decode_failure_handling (st : ClientState) :
    handleMessage st .invalidJson = (st, .logMalformed) ∧
      (∀ data, jsonGet data "id" = none → jsonGet data "method" = none →
        handleMessage st (.jsonObj data) = (st, .ignored)) ∧
      (∀ data k, jsonGet data "id" = some (Json.num k) →
        st.tracked.contains k = true →
        jsonGet data "error" = none →
        jsonGet data "result" = none →
        (handleMessage st (.jsonObj data)).2 = .resolvedOk k (Json.obj [])) := by
  refine ⟨rfl, ?_, ?_⟩
  · intro data hid hm
    simp [handleMessage, hid, hm]
  · intro data k hid htr herr hres
    rw [handleMessage_response_ok st data k hid htr herr, hres]
    rfl

/-- C7 amended witness: on the two-pending-call client, invalid JSON is
logged, a frame with only a `jsonrpc` field is ignored, and the bare
acknowledgement for id 2 resolves the call with the empty object. -/
theorem c7_amended_decode_witness :
    handleMessage stTwoPending .invalidJson = (stTwoPending, .logMalformed) ∧
      handleMessage stTwoPending (.jsonObj [("jsonrpc", Json.str "2.0")]) =
        (stTwoPending, .ignored) ∧
      (handleMessage stTwoPending (.jsonObj frameBareAck)).2 =
        .resolvedOk 2 (Json.obj []) := by
  obtain ⟨h1, h2, h3⟩ := c7_amended_decode_failure_handling stTwoPending
  exact ⟨h1, h2 [("jsonrpc", Json.str "2.0")] rfl rfl,
    h3 frameBareAck 2 rfl rfl rfl rfl⟩

/-- C3: `disconnect()` cancels every still-pending call tracked by the
registry, clears the registry, is idempotent (a second `disconnect()`
changes nothing), and on a never-connected client is a no-op. -/
theorem c3_disconnect_cancels_and_is_idempotent (st : ClientState) :
    (∀ k, k ∈ st.tracked → st.futures.lookup k = some .pending →
      (disconnect st).futures.lookup k = some .cancelled) ∧
      (disconnect st).tracked = [] ∧
      disconnect (disconnect st) = disconnect st ∧
      disconnect initClient = initClient := by
  refine ⟨?_, rfl, ?_, rfl⟩
  · intro k hk hl
    have hpres : ∀ e : Int × FutureState,
        ((fun e => if st.tracked.contains e.1 && !e.2.isDone
            then (e.1, FutureState.cancelled) else e) e).1 = e.1 := by
      intro e
      dsimp only
      split <;> rfl
    have hstep := lookup_map_entry k .pending _ hpres st.futures hl
    have hc : st.tracked.contains k = true := by simpa using hk
    have hcond : (st.tracked.contains k && !(FutureState.pending.isDone)) = true := by
      rw [hc]; rfl
    have hval : (if st.tracked.contains k && !(FutureState.pending.isDone)
        then (k, FutureState.cancelled) else (k, FutureState.pending))
        = (k, FutureState.cancelled) := if_pos hcond
    simp only at hstep
    rw [hval] at hstep
    exact hstep
  · cases st with
    | mk w t mid sc ec tr fut => simp [disconnect]

/-- C3 witness: disconnecting the two-pending-call client cancels call 1,
empties the registry, a second disconnect changes nothing, and
disconnecting the never-connected client is a no-op. -/
theorem c3_disconnect_witness :
    (disconnect stTwoPending).futures.lookup 1 = some .cancelled ∧
      (disconnect stTwoPending).tracked = [] ∧
      disconnect (disconnect stTwoPending) = disconnect stTwoPending ∧
      disconnect initClient = initClient :=
  ⟨(c3_disconnect_cancels_and_is_idempotent stTwoPending).1 1 (by decide) rfl,
   (c3_disconnect_cancels_and_is_idempotent stTwoPending).2.1,
   (c3_disconnect_cancels_and_is_idempotent stTwoPending).2.2.1,
   (c3_disconnect_cancels_and_is_idempotent stTwoPending).2.2.2⟩

/-- The state after the atomic allocation step of `_send_command` on a
connected client (`api.py` lines 142-155): counter bumped, a fresh
pending future registered under the new id. -/
def allocStep (st : ClientState) : ClientState :=
  { st with
    messageId := st.messageId + 1,
    futures := st.futures ++ [(st.messageId + 1, FutureState.pending)],
    tracked := st.tracked ++ [st.messageId + 1] }

/-- On a connected client, `_send_command` allocates exactly
`_message_id + 1` and registers it. -/
theorem sendCommandStart_connected (st : ClientState) (method : String)
    (params : Option (List (String × Json))) (h : st.websocket = true) :
    sendCommandStart st method params =
      (allocStep st,
       .ok (st.messageId + 1, encodeRequest method (st.messageId + 1) params)) := by
  simp [sendCommandStart, allocStep, h]

/-- Unfolding of `runCalls` over one call on a connected client. -/
theorem runCalls_cons (st : ClientState) (m : String)
    (p : Option (List (String × Json)))
    (rest : List (String × Option (List (String × Json))))
    (h : st.websocket = true) :
    runCalls st ((m, p) :: rest) =
      ((runCalls (allocStep st) rest).1,
       (st.messageId + 1) :: (runCalls (allocStep st) rest).2) := by
  simp [runCalls, sendCommandStart_connected st m p h]

/-- Over a run of calls on a connected client, every allocated id exceeds
the starting counter and the ids come out in strictly increasing
order. -/
theorem runCalls_ids_increasing
    (cmds : List (String × Option (List (String × Json)))) :
    ∀ st : ClientState, st.websocket = true →
      (∀ i ∈ (runCalls st cmds).2, st.messageId < i) ∧
        List.Chain' (fun a b => a < b) (runCalls st cmds).2 := by
  induction cmds with
  | nil => intro st h; simp [runCalls]
  | cons c rest ih =>
    obtain ⟨m, p⟩ := c
    intro st h
    rw [runCalls_cons st m p rest h]
    obtain ⟨iha, ihb⟩ := ih (allocStep st) h
    have hmid : (allocStep st).messageId = st.messageId + 1 := rfl
    rw [hmid] at iha
    constructor
    · intro i hi
      rcases List.mem_cons.mp hi with h2 | h2
      · omega
      · have h3 := iha i h2
        omega
    · rw [List.chain'_cons']
      refine ⟨?_, ihb⟩
      intro b hb
      exact iha b (List.mem_of_mem_head? hb)

/-- C5: in any sequence of call invocations on one connected client the
allocated request ids are strictly increasing, pairwise distinct, and
never zero. -/
theorem c5_ids_strictly_increasing_unique_nonzero (st : ClientState)
    (cmds : List (String × Option (List (String × Json))))
    (hws : st.websocket = true) (hmid : 0 ≤ st.messageId) :
    List.Chain' (fun a b => a < b) (runCalls st cmds).2 ∧
      (runCalls st cmds).2.Nodup ∧
      ∀ i ∈ (runCalls st cmds).2, i ≠ 0 := by
  obtain ⟨hall, hchain⟩ := runCalls_ids_increasing cmds st hws
  refine ⟨hchain, ?_, ?_⟩
  · exact (List.chain'_iff_pairwise.mp hchain).nodup
  · intro i hi
    have := hall i hi
    omega

/-- A freshly connected client: transport open, listener running,
counter still zero. -/
def stConnected : ClientState :=
  { websocket := true, task := true, messageId := 0,
    stateCb := false, errorCb := false, tracked := [], futures := [] }

/-- Three concrete facade calls. -/
def callsThree : List (String × Option (List (String × Json))) :=
  [("play", none), ("setVolume", some [("level", Json.num 1)]), ("pause", none)]

/-- C5 witness: three calls on the fresh connected client allocate ids in
strictly increasing order, with no duplicate and no zero. -/
theorem c5_ids_witness :
    List.Chain' (fun a b => a < b) (runCalls stConnected callsThree).2 ∧
      (runCalls stConnected callsThree).2.Nodup ∧
      ∀ i ∈ (runCalls stConnected callsThree).2, i ≠ 0 :=
  c5_ids_strictly_increasing_unique_nonzero stConnected callsThree rfl (by decide)
